import Mathlib

/-!
# The Error path of the `clog` logger (`errors.go`)

A shallow embedding of `Logger.Error`, `Logger.Errorf` and `Logger.error`.
The logger's pointers (`l.buff`, `l.mutex`) and its sink (`l.output`) live in an explicit
`World`; every access to them is also recorded as an `Event`, so that statements about
ordering (lock discipline, number of sink writes) can be made about the trace.
-/

namespace Clog

/-! ## Data model -/

/-- Modelled from the spec: the `Level` type and its constants are not declared in
`errors.go`. Section 3: one of Debug, Info, Warn, Error, Fatal. -/
inductive Level where
  | Debug
  | Info
  | Warn
  | Error
  | Fatal
  deriving DecidableEq, Repr

/-- Modelled from the spec: the numeric rank of a level (section 3:
Debug < Info < Warn < Error < Fatal). -/
def Level.rank : Level → Nat
  | .Debug => 0
  | .Info => 1
  | .Warn => 2
  | .Error => 3
  | .Fatal => 4

/-- The constant `LevelError` used by `Logger.error`. -/
def LevelError : Level := Level.Error

/-- The constant `LevelFatal` of the test table. -/
def LevelFatal : Level := Level.Fatal

/-- The option fields of a `Logger`, as the test table of `TestLoggerLevels` names them
(`level`, `printColor`, `printErrorLine`, `printTime`, `timeLayout`) plus the resolved
`prefix` (written `prefix_` here). The pointers `buff`, `mutex` and the sink `output` are
the fields of `World`. -/
structure Logger where
  level : Level
  printColor : Bool
  printErrorLine : Bool
  printTime : Bool
  timeLayout : String
  prefix_ : String
  deriving DecidableEq, Repr

/-- The result `(n int, err error)` of a `Write`; `err = none` is Go's `nil`. -/
abbrev WriteResult := Nat × Option String

/-- What a call can do to the logger's shared objects and its surroundings. -/
inductive Event where
  /-- call of `time.Now()` -/
  | now
  /-- call of `l.mutex.Lock()` -/
  | lock
  /-- call of `l.mutex.Unlock()` -/
  | unlock
  /-- call of `l.buff.Reset()` -/
  | buffReset
  /-- a write of `s` into `l.buff` -/
  | buffWrite (s : String)
  /-- call of `l.buff.Bytes()` -/
  | buffBytes
  /-- call of `l.output.Write(b)` and what the sink answered -/
  | outputWrite (b : String) (r : WriteResult)
  deriving DecidableEq, Repr

/-- The objects a `Logger` value points to, and the trace of what was done to them. -/
structure World where
  /-- content of `*l.buff` -/
  buff : String
  /-- whether `*l.mutex` is held -/
  held : Bool
  /-- the arguments of the `Write` calls `l.output` has received, oldest first -/
  writes : List String
  /-- every event so far, oldest first -/
  trace : List Event
  deriving DecidableEq, Repr

/-- The capabilities one call consumes: the clock, the time formatter, the caller
location, the colour table and the behaviour of the sink. All are outside `errors.go`. -/
structure Env where
  /-- what `time.Now()` returns -/
  clock : Nat
  /-- the rendering `t.Format(layout)` -/
  format : Nat → String → String
  /-- the rendered `file:line` of the call site -/
  callerLine : String
  /-- the level tag wrapped in the level's ANSI colour code -/
  colorize : Level → String → String
  /-- the sink: given the writes it has received and the bytes, its answer -/
  answer : List String → String → WriteResult

/-- The same surroundings with another sink behaviour. -/
def Env.withAnswer (env : Env) (answer : List String → String → WriteResult) : Env :=
  { env with answer := answer }

/-- The part of package `fmt` the two entry points use, over operand type `V`. -/
structure Fmt (V : Type) where
  /-- the default format of one operand (`%v`) -/
  operand : V → String
  /-- the function `fmt.Sprintf` -/
  Sprintf : String → List V → String

/-- The function `fmt.Sprintln`: the operands in their default format, a space between operands,
a newline appended. -/
def Fmt.Sprintln {V : Type} (F : Fmt V) (v : List V) : String :=
  String.intercalate " " (v.map F.operand) ++ "\n"

/-! ## Primitive operations on the world -/

/-- The call `time.Now()`. -/
def timeNow (env : Env) (w : World) : Nat × World :=
  (env.clock, { w with trace := w.trace ++ [Event.now] })

/-- The call `l.mutex.Lock()`: `none` when the mutex is held (the call blocks). -/
def mutexLock (w : World) : Option World :=
  if w.held then none
  else some { w with held := true, trace := w.trace ++ [Event.lock] }

/-- The call `l.mutex.Unlock()`. -/
def mutexUnlock (w : World) : World :=
  { w with held := false, trace := w.trace ++ [Event.unlock] }

/-- The call `l.buff.Reset()`. -/
def buffReset (w : World) : World :=
  { w with buff := "", trace := w.trace ++ [Event.buffReset] }

/-- The call `l.buff.Write(s)`, also what `fmt.Fprint*(l.buff, ...)` ends in. -/
def buffWrite (s : String) (w : World) : WriteResult × World :=
  ((s.utf8ByteSize, none), { w with buff := w.buff ++ s, trace := w.trace ++ [Event.buffWrite s] })

/-- The call `l.buff.Bytes()`. -/
def buffBytes (w : World) : String × World :=
  (w.buff, { w with trace := w.trace ++ [Event.buffBytes] })

/-- The call `l.output.Write(b)`; the sink's answer is returned and recorded. -/
def outputWrite (env : Env) (b : String) (w : World) : WriteResult × World :=
  let r := env.answer w.writes b
  (r, { w with writes := w.writes ++ [b], trace := w.trace ++ [Event.outputWrite b r] })

/-! ## Helpers of `Logger` that `errors.go` calls but does not define -/

/-- Modelled from the spec: `shouldPrint` is absent from the source. Section 4.1:
true iff `msgLevel.rank >= configuredLevel.rank`. -/
def Logger.shouldPrint (l : Logger) (msgLevel : Level) : Bool :=
  decide (msgLevel.rank ≥ l.level.rank)

/-- Modelled from the spec: `getTime` is absent from the source. Section 4.2 step 4:
if `printTime`, the time rendered with `timeLayout`, followed by a single space. -/
def Logger.getTime (env : Env) (l : Logger) (now : Nat) : String :=
  if l.printTime then env.format now l.timeLayout ++ " " else ""

/-- Modelled from the spec: `getErrPrefix` is absent from the source. Section 4.2 step 5:
the bracketed tag `[ERR]`, colorized if `printColor`, followed by a single space. -/
def Logger.getErrPrefix (env : Env) (l : Logger) : String :=
  (if l.printColor then env.colorize Level.Error "[ERR]" else "[ERR]") ++ " "

/-- Modelled from the spec: `getCaller` is absent from the source. Section 4.2 step 6:
if `printErrorLine`, the caller's file and line, followed by a space. -/
def Logger.getCaller (env : Env) (l : Logger) : String :=
  if l.printErrorLine then env.callerLine ++ " " else ""

/-- Modelled from the spec: `writeIntoBuffer` is absent from the source. Section 4.2:
each step appends its segment to the logger's buffer. -/
def Logger.writeIntoBuffer (s : String) (w : World) : World :=
  (buffWrite s w).2

/-! ## `errors.go` -/

/-- The type `messagePrintFunction`: `func() (int, error)`, a closure over `l.buff`. -/
abbrev messagePrintFunction := World → WriteResult × World

/-- Source: `func (l Logger) error(print messagePrintFunction)`; `none` when the call blocks
in `l.mutex.Lock()`. -/
def Logger.error (env : Env) (l : Logger) (print : messagePrintFunction) (w : World) :
    Option World :=
  if !l.shouldPrint LevelError then
    some w
  else
    let (now, w) := timeNow env w
    match mutexLock w with
    | none => none
    | some w =>
      -- defer l.mutex.Unlock()
      let w := buffReset w
      let w := Logger.writeIntoBuffer (l.getTime env now) w
      let w := Logger.writeIntoBuffer (l.getErrPrefix env) w
      let w := Logger.writeIntoBuffer (l.getCaller env) w
      let (_, w) := print w
      let (b, w) := buffBytes w
      let (_, w) := outputWrite env b w
      some (mutexUnlock w)

/-- Source: `func (l Logger) Error(v ...interface{})`: `print` is `fmt.Fprintln(l.buff, v...)`. -/
def Logger.Error {V : Type} (F : Fmt V) (env : Env) (l : Logger) (v : List V) (w : World) :
    Option World :=
  let print : messagePrintFunction := fun w => buffWrite (F.Sprintln v) w
  l.error env print w

/-- Source: `func (l Logger) Errorf(format string, v ...interface{})`: `print` is
`fmt.Fprintf(l.buff, format, v...)`. -/
def Logger.Errorf {V : Type} (F : Fmt V) (env : Env) (l : Logger) (format : String)
    (v : List V) (w : World) : Option World :=
  let print : messagePrintFunction := fun w => buffWrite (F.Sprintf format v) w
  l.error env print w

/-! ## Functions of the repository that are not in `errors.go` -/

/-- Modelled from the spec: `WithPrefix` is absent from the source. Section 3: derivation
concatenates the parent prefix and the new segment with a fixed separator; section 4.4:
the separator is `": "`, appended after the segment, and the chain `A`, `B` must render
`A: B: ` (what `TestWithPrefix` asserts). Options are copied; the derived logger has a
buffer and a mutex of its own, so it is run on a `World` of its own. Section 4.4 also
names a separator between a non-empty parent prefix and the segment; a derived parent
already ends in the separator, and putting a second one would render `A: : B: `, against
the same paragraph and the test, so none is put here. -/
def Logger.WithPrefix (l : Logger) (segment : String) : Logger :=
  { l with prefix_ := l.prefix_ ++ segment ++ ": " }

/-- Modelled from the spec: `Write` is absent from the source. Section 4.3: no level
gate and no level-tag segment, but the time, caller and prefix segments, under the same
lock discipline and buffer-reuse rule as the emission pipeline of section 4.2 (steps 2
to 4, 6 to 10); section 6: no added newline. -/
def Logger.Write (env : Env) (l : Logger) (b : String) (w : World) : Option World :=
  let (now, w) := timeNow env w
  match mutexLock w with
  | none => none
  | some w =>
    let w := buffReset w
    let w := Logger.writeIntoBuffer (l.getTime env now) w
    let w := Logger.writeIntoBuffer (l.getCaller env) w
    let w := Logger.writeIntoBuffer l.prefix_ w
    let w := Logger.writeIntoBuffer b w
    let (bs, w) := buffBytes w
    let (_, w) := outputWrite env bs w
    some (mutexUnlock w)

/-- Modelled from the spec: `WriteString` is absent from the source; sections 4.3 and 6
give it the behaviour of `Write` (same segments, no level tag, no added newline) on the
bytes of the string. -/
def Logger.WriteString (env : Env) (l : Logger) (s : String) (w : World) : Option World :=
  l.Write env s w

/-! ## Fixtures of `log_test.go` -/

/-- The operands the tests pass: strings and integers. -/
inductive Value where
  | str (s : String)
  | int (i : Int)
  deriving DecidableEq, Repr

/-- The Go type name of an operand. -/
def Value.typeName : Value → String
  | .str _ => "string"
  | .int _ => "int"

/-- The default format (`%v`) of an operand. -/
def Value.render : Value → String
  | .str s => s
  | .int i => toString i

/-- One verb applied to one operand: `%v`, `%s` on a string, `%d` on an integer; any
other pairing renders Go's bad-verb marker `%!c(type=value)`. -/
def fmtVerb (c : Char) (a : Value) : String :=
  match c, a with
  | 'v', a => a.render
  | 's', .str s => s
  | 'd', .int i => toString i
  | c, a => "%!" ++ c.toString ++ "(" ++ a.typeName ++ "=" ++ a.render ++ ")"

/-- The fragment of `fmt.Sprintf` the tests use: plain text, `%%`, and verbs with no flag,
width or precision; Go's markers for a missing operand, a trailing `%` and extra
operands. -/
def sprintfChars : List Char → List Value → String
  | [], [] => ""
  | [], a :: as =>
    "%!(EXTRA " ++ ", ".intercalate ((a :: as).map fun x => x.typeName ++ "=" ++ x.render) ++ ")"
  | ['%'], as => "%!(NOVERB)" ++ sprintfChars [] as
  | '%' :: '%' :: cs, as => "%" ++ sprintfChars cs as
  | '%' :: c :: cs, [] => "%!" ++ c.toString ++ "(MISSING)" ++ sprintfChars cs []
  | '%' :: c :: cs, a :: as => fmtVerb c a ++ sprintfChars cs as
  | c :: cs, as => c.toString ++ sprintfChars cs as

/-- Package `fmt` on the operands of the tests. -/
def goFmt : Fmt Value :=
  { operand := Value.render, Sprintf := fun format v => sprintfChars format.toList v }

/-- The logger of `TestWithPrefix` before any prefix is set:
`NewDevConfig().PrintColor(false).PrintErrorLine(false).PrintTime(false).Build()`; its
level lets `Debug` through. -/
def plainLogger : Logger :=
  { level := Level.Debug, printColor := false, printErrorLine := false, printTime := false,
    timeLayout := "", prefix_ := "" }

/-- The first logger of `TestWithPrefix`: the same options and `SetPrefix("prefix")`. -/
def prefixedLogger : Logger :=
  { plainLogger with prefix_ := "prefix" }

/-- The third logger of `TestWithPrefix`. -/
def chainedLogger : Logger :=
  (plainLogger.WithPrefix "[first prefix]").WithPrefix "[second prefix]"

/-- A `bytes.Buffer` sink that accepts every write, a clock at 0 rendered as `t0`, a fixed
call site, no colour codes. -/
def testEnv : Env :=
  { clock := 0, format := fun t _ => "t" ++ toString t, callerLine := "log_test.go:25",
    colorize := fun _ s => s, answer := fun _ b => (b.utf8ByteSize, none) }

/-- The answer of a sink whose every `Write` fails with a zero count. -/
def failingAnswer : List String → String → WriteResult :=
  fun _ _ => (0, some "write failed")

/-- The surroundings of `testEnv` with the failing sink. -/
def failingEnv : Env :=
  testEnv.withAnswer failingAnswer

/-- A logger that has not been used: empty buffer, free mutex, nothing written. -/
def World.init : World :=
  { buff := "", held := false, writes := [], trace := [] }

/-- A logger after earlier use: its buffer still holds the last line. -/
def World.used : World :=
  { buff := "[ERR] earlier\n", held := false, writes := ["[ERR] earlier\n"], trace := [] }

/-- The options of `plainLogger` with the time and caller segments switched on and the
prefix of `prefixedLogger`. -/
def decoratedLogger : Logger :=
  { prefixedLogger with printTime := true, printErrorLine := true }

/-- The configuration of the "fatal level" row of `TestLoggerLevels`. -/
def fatalLogger : Logger :=
  { plainLogger with level := LevelFatal }

/-- The "fatal level" configuration with the prefix of `prefixedLogger`. -/
def fatalPrefixedLogger : Logger :=
  { prefixedLogger with level := LevelFatal }

/-! ## Specification-level vocabulary -/

/-- The line `Logger.error` composes around a message: the time segment, the level-tag
segment, the caller segment and the message, in the order of the three
`writeIntoBuffer` calls and the `print()` call. -/
def errLine (env : Env) (l : Logger) (msg : String) : String :=
  l.getTime env env.clock ++ l.getErrPrefix env ++ l.getCaller env ++ msg

/-- The events of one call of `Logger.error` that passes the gate, when its print
function writes `msg` into the buffer and the sink has received `ws` before. -/
def errEvents (env : Env) (l : Logger) (msg : String) (ws : List String) : List Event :=
  [Event.now, Event.lock, Event.buffReset,
   Event.buffWrite (l.getTime env env.clock),
   Event.buffWrite (l.getErrPrefix env),
   Event.buffWrite (l.getCaller env),
   Event.buffWrite msg,
   Event.buffBytes,
   Event.outputWrite (errLine env l msg) (env.answer ws (errLine env l msg)),
   Event.unlock]

/-- Whether an event reads or writes the scratch buffer, or writes to the sink. -/
def Event.needsLock : Event → Bool
  | .buffReset => true
  | .buffWrite _ => true
  | .buffBytes => true
  | .outputWrite _ _ => true
  | _ => false

/-- Replay of a trace against a mutex that is held or not: `Lock` only when free,
`Unlock` only when held, buffer and sink events only when held. The result is the final
state of the mutex, `none` when the trace breaks one of the three rules. -/
def lockReplay : Bool → List Event → Option Bool
  | h, [] => some h
  | h, Event.lock :: es => if h then none else lockReplay true es
  | h, Event.unlock :: es => if h then lockReplay false es else none
  | h, e :: es => if e.needsLock && !h then none else lockReplay h es

/-- The lock discipline of one call, stated on the events it adds: the replay succeeds from
a free mutex and ends with it free, the mutex is taken once and released once, and the
release is the last event. -/
def LockDisciplined (evs : List Event) : Prop :=
  lockReplay false evs = some false ∧ evs.count Event.lock = 1 ∧
    evs.count Event.unlock = 1 ∧ evs.getLast? = some Event.unlock

/-! ## Lemmas on `Logger.error` -/

theorem shouldPrint_error_iff (l : Logger) :
    l.shouldPrint LevelError = true ↔ LevelError.rank ≥ l.level.rank := by
  simp [Logger.shouldPrint]

theorem shouldPrint_error_cases (l : Logger) :
    l.shouldPrint LevelError = true ↔ l.level ≠ Level.Fatal := by
  cases l with
  | mk level c e t tl p => cases level <;> simp [Logger.shouldPrint, LevelError, Level.rank]

/-- Below the gate `Logger.error` returns at once: the world is untouched. -/
theorem internal_error_gated (env : Env) (l : Logger) (print : messagePrintFunction) (w : World)
    (h : l.shouldPrint LevelError = false) : l.error env print w = some w := by
  simp [Logger.error, h]

/-- Past the gate, with the mutex free, `Logger.error` with a print function that writes
`msg` into the buffer returns this world. -/
theorem internal_error_passed (env : Env) (l : Logger) (msg : String) (w : World)
    (h : l.shouldPrint LevelError = true) (hw : w.held = false) :
    l.error env (fun w => buffWrite msg w) w =
      some { buff := errLine env l msg, held := false,
             writes := w.writes ++ [errLine env l msg],
             trace := w.trace ++ errEvents env l msg w.writes } := by
  simp [Logger.error, h, timeNow, mutexLock, hw, buffReset, Logger.writeIntoBuffer, buffWrite,
    buffBytes, outputWrite, mutexUnlock, errLine, errEvents, String.append_assoc]

/-- With time, caller and colour off the composed line is the tag, a space and the
message. -/
theorem errLine_plain (env : Env) (l : Logger) (msg : String) (ht : l.printTime = false)
    (hc : l.printErrorLine = false) (hk : l.printColor = false) :
    errLine env l msg = "[ERR] " ++ msg := by
  simp [errLine, Logger.getTime, Logger.getErrPrefix, Logger.getCaller, ht, hc, hk]

/-- The composed line does not depend on the logger's prefix. -/
theorem errLine_prefix_irrelevant (env : Env) (l : Logger) (p msg : String) :
    errLine env { l with prefix_ := p } msg = errLine env l msg := rfl

/-- With the mutex held, a call that passes the gate blocks. -/
theorem internal_error_blocked (env : Env) (l : Logger) (print : messagePrintFunction) (w : World)
    (h : l.shouldPrint LevelError = true) (hw : w.held = true) :
    l.error env print w = none := by
  simp [Logger.error, h, timeNow, mutexLock, hw]

theorem append_singleton_ne {α : Type} (xs : List α) (x : α) : xs ++ [x] ≠ xs := by
  intro h
  have := congrArg List.length h
  simp at this

theorem string_append_newline_ne (s : String) : s ≠ s ++ "\n" := by
  intro h
  have h2 := congrArg String.length h
  rw [String.length_append] at h2
  have h3 : "\n".length = 1 := by decide
  omega

/-- Past the gate `Logger.Error` returns this world: the message is `Sprintln` of the operands. -/
theorem Error_call_passed {V : Type} (F : Fmt V) (env : Env) (l : Logger) (v : List V) (w : World)
    (h : l.shouldPrint LevelError = true) (hw : w.held = false) :
    l.Error F env v w =
      some { buff := errLine env l (F.Sprintln v), held := false,
             writes := w.writes ++ [errLine env l (F.Sprintln v)],
             trace := w.trace ++ errEvents env l (F.Sprintln v) w.writes } :=
  internal_error_passed env l (F.Sprintln v) w h hw

/-- Past the gate `Logger.Errorf` returns this world: the message is `Sprintf` of the format and operands. -/
theorem Errorf_call_passed {V : Type} (F : Fmt V) (env : Env) (l : Logger) (format : String)
    (v : List V) (w : World) (h : l.shouldPrint LevelError = true) (hw : w.held = false) :
    l.Errorf F env format v w =
      some { buff := errLine env l (F.Sprintf format v), held := false,
             writes := w.writes ++ [errLine env l (F.Sprintf format v)],
             trace := w.trace ++ errEvents env l (F.Sprintf format v) w.writes } :=
  internal_error_passed env l (F.Sprintf format v) w h hw

/-- Below the gate `Logger.Error` leaves the world untouched. -/
theorem Error_call_gated {V : Type} (F : Fmt V) (env : Env) (l : Logger) (v : List V) (w : World)
    (h : l.shouldPrint LevelError = false) : l.Error F env v w = some w :=
  internal_error_gated env l (fun w => buffWrite (F.Sprintln v) w) w h

/-- Below the gate `Logger.Errorf` leaves the world untouched. -/
theorem Errorf_call_gated {V : Type} (F : Fmt V) (env : Env) (l : Logger) (format : String)
    (v : List V) (w : World) (h : l.shouldPrint LevelError = false) :
    l.Errorf F env format v w = some w :=
  internal_error_gated env l (fun w => buffWrite (F.Sprintf format v) w) w h

/-- The trace of a passing call obeys the lock rules and ends with the mutex free. -/
theorem lockReplay_errEvents (env : Env) (l : Logger) (msg : String) (ws : List String) :
    lockReplay false (errEvents env l msg ws) = some false := by
  simp [errEvents, lockReplay, Event.needsLock]

/-! ## The claims -/

/-- C1: level gating of the Error path. With the mutex free, `Error` and `Errorf` both
return, and each hands one write to the sink if and only if
`rank(Error) >= rank(level)`; at level Fatal neither writes anything, at levels Debug,
Info, Warn and Error each writes. -/
theorem error_level_gating {V : Type} (F : Fmt V) (env : Env) (l : Logger) (format : String)
    (v : List V) (w : World) (hw : w.held = false) :
    ∃ w1 w2, l.Error F env v w = some w1 ∧ l.Errorf F env format v w = some w2 ∧
      ((∃ b, w1.writes = w.writes ++ [b]) ↔ LevelError.rank ≥ l.level.rank) ∧
      ((∃ b, w2.writes = w.writes ++ [b]) ↔ LevelError.rank ≥ l.level.rank) ∧
      (l.level = Level.Fatal → w1.writes = w.writes ∧ w2.writes = w.writes) ∧
      (l.level ∈ [Level.Debug, Level.Info, Level.Warn, Level.Error] →
        (∃ b, w1.writes = w.writes ++ [b]) ∧ (∃ b, w2.writes = w.writes ++ [b])) := by
  by_cases h : l.shouldPrint LevelError = true
  · have hr := (shouldPrint_error_iff l).1 h
    have hne := (shouldPrint_error_cases l).1 h
    refine ⟨_, _, Error_call_passed F env l v w h hw, Errorf_call_passed F env l format v w h hw,
      ⟨fun _ => hr, fun _ => ⟨_, rfl⟩⟩, ⟨fun _ => hr, fun _ => ⟨_, rfl⟩⟩,
      fun hf => absurd hf hne, fun _ => ⟨⟨_, rfl⟩, ⟨_, rfl⟩⟩⟩
  · have hr : ¬ LevelError.rank ≥ l.level.rank := fun hr => h ((shouldPrint_error_iff l).2 hr)
    have hf : l.level = Level.Fatal := by
      by_contra hne
      exact h ((shouldPrint_error_cases l).2 hne)
    have hg : l.shouldPrint LevelError = false := by simpa using h
    refine ⟨w, w, Error_call_gated F env l v w hg, Errorf_call_gated F env l format v w hg, ?_, ?_,
      fun _ => ⟨rfl, rfl⟩, ?_⟩
    · exact ⟨fun ⟨b, hb⟩ => absurd hb.symm (append_singleton_ne w.writes b),
        fun hge => absurd hge hr⟩
    · exact ⟨fun ⟨b, hb⟩ => absurd hb.symm (append_singleton_ne w.writes b),
        fun hge => absurd hge hr⟩
    · intro hm
      rw [hf] at hm
      simp at hm

/-- Witness of C1 at the "debug level" configuration of `TestLoggerLevels`, on a logger
that has not been used. -/
theorem error_level_gating_witness :
    World.init.held = false ∧
    ∃ w1 w2, plainLogger.Error goFmt testEnv [Value.str "arg"] World.init = some w1 ∧
      plainLogger.Errorf goFmt testEnv "errorf %s" [Value.str "arg"] World.init = some w2 ∧
      ((∃ b, w1.writes = World.init.writes ++ [b]) ↔ LevelError.rank ≥ plainLogger.level.rank) ∧
      ((∃ b, w2.writes = World.init.writes ++ [b]) ↔ LevelError.rank ≥ plainLogger.level.rank) ∧
      (plainLogger.level = Level.Fatal →
        w1.writes = World.init.writes ∧ w2.writes = World.init.writes) ∧
      (plainLogger.level ∈ [Level.Debug, Level.Info, Level.Warn, Level.Error] →
        (∃ b, w1.writes = World.init.writes ++ [b]) ∧
        (∃ b, w2.writes = World.init.writes ++ [b])) :=
  ⟨rfl, error_level_gating goFmt testEnv plainLogger "errorf %s" [Value.str "arg"] World.init rfl⟩

/-- C6: one write per emission and no leak from buffer reuse. Past the gate and whatever
the buffer holds, `Error` and `Errorf` add exactly one write to the sink, the line of this
call; two `Error` calls in sequence add exactly two writes, and the second is the write
the second call makes on a logger that has not been used. -/
theorem one_write_no_leak {V : Type} (F : Fmt V) (env1 env2 : Env) (l : Logger)
    (format : String) (v1 v2 : List V) (w : World)
    (hl : LevelError.rank ≥ l.level.rank) (hw : w.held = false) :
    (∃ w1, l.Error F env1 v1 w = some w1 ∧
      w1.writes = w.writes ++ [errLine env1 l (F.Sprintln v1)]) ∧
    (∃ w1, l.Errorf F env1 format v1 w = some w1 ∧
      w1.writes = w.writes ++ [errLine env1 l (F.Sprintf format v1)]) ∧
    (∃ w1 w2 wf line2, l.Error F env1 v1 w = some w1 ∧ l.Error F env2 v2 w1 = some w2 ∧
      l.Error F env2 v2 World.init = some wf ∧ wf.writes = [line2] ∧
      w2.writes = w.writes ++ [errLine env1 l (F.Sprintln v1), line2]) := by
  have h := (shouldPrint_error_iff l).2 hl
  refine ⟨⟨_, Error_call_passed F env1 l v1 w h hw, rfl⟩,
    ⟨_, Errorf_call_passed F env1 l format v1 w h hw, rfl⟩,
    ⟨_, _, _, errLine env2 l (F.Sprintln v2), Error_call_passed F env1 l v1 w h hw,
      Error_call_passed F env2 l v2 _ h rfl, Error_call_passed F env2 l v2 World.init h rfl, ?_, ?_⟩⟩
  · simp [World.init]
  · simp

/-- Witness of C6: two `Error` calls on a logger whose buffer still holds an earlier
line. -/
theorem one_write_no_leak_witness :
    (LevelError.rank ≥ plainLogger.level.rank ∧ World.used.held = false) ∧
    (∃ w1, plainLogger.Error goFmt testEnv [Value.str "error"] World.used = some w1 ∧
      w1.writes = World.used.writes ++ [errLine testEnv plainLogger
        (goFmt.Sprintln [Value.str "error"])]) ∧
    (∃ w1, plainLogger.Errorf goFmt testEnv "errorf %s" [Value.str "error"] World.used = some w1 ∧
      w1.writes = World.used.writes ++ [errLine testEnv plainLogger
        (goFmt.Sprintf "errorf %s" [Value.str "error"])]) ∧
    (∃ w1 w2 wf line2,
      plainLogger.Error goFmt testEnv [Value.str "error"] World.used = some w1 ∧
      plainLogger.Error goFmt failingEnv [Value.str "again"] w1 = some w2 ∧
      plainLogger.Error goFmt failingEnv [Value.str "again"] World.init = some wf ∧
      wf.writes = [line2] ∧
      w2.writes = World.used.writes ++
        [errLine testEnv plainLogger (goFmt.Sprintln [Value.str "error"]), line2]) :=
  ⟨⟨by decide, rfl⟩,
    one_write_no_leak goFmt testEnv failingEnv plainLogger "errorf %s" [Value.str "error"]
      [Value.str "again"] World.used (by decide) rfl⟩

/-- C7: sink write failures are dropped. Past the gate, whatever the sink answers to the
write (an error, a short count), `Error` and `Errorf` return, the sink has received
exactly one more write, and the buffer, the mutex and the writes are those of the call
on a sink that answers otherwise. -/
theorem sink_failure_dropped {V : Type} (F : Fmt V) (env : Env)
    (answer : List String → String → WriteResult) (l : Logger) (format : String)
    (v : List V) (w : World) (hl : LevelError.rank ≥ l.level.rank) (hw : w.held = false) :
    (∃ w1 w2, l.Error F (env.withAnswer answer) v w = some w1 ∧
      l.Error F env v w = some w2 ∧
      w1.writes = w.writes ++ [errLine env l (F.Sprintln v)] ∧
      w1.writes = w2.writes ∧ w1.buff = w2.buff ∧ w1.held = false ∧ w2.held = false) ∧
    (∃ w1 w2, l.Errorf F (env.withAnswer answer) format v w = some w1 ∧
      l.Errorf F env format v w = some w2 ∧
      w1.writes = w.writes ++ [errLine env l (F.Sprintf format v)] ∧
      w1.writes = w2.writes ∧ w1.buff = w2.buff ∧ w1.held = false ∧ w2.held = false) := by
  have h := (shouldPrint_error_iff l).2 hl
  exact ⟨⟨_, _, Error_call_passed F (env.withAnswer answer) l v w h hw,
      Error_call_passed F env l v w h hw, rfl, rfl, rfl, rfl, rfl⟩,
    ⟨_, _, Errorf_call_passed F (env.withAnswer answer) l format v w h hw,
      Errorf_call_passed F env l format v w h hw, rfl, rfl, rfl, rfl, rfl⟩⟩

/-- Witness of C7: a sink that fails every write with a zero count, against the
`bytes.Buffer` of the tests. -/
theorem sink_failure_dropped_witness :
    (LevelError.rank ≥ plainLogger.level.rank ∧ World.used.held = false) ∧
    (∃ w1 w2, plainLogger.Error goFmt failingEnv [Value.str "arg"] World.used = some w1 ∧
      plainLogger.Error goFmt testEnv [Value.str "arg"] World.used = some w2 ∧
      w1.writes = World.used.writes ++
        [errLine testEnv plainLogger (goFmt.Sprintln [Value.str "arg"])] ∧
      w1.writes = w2.writes ∧ w1.buff = w2.buff ∧ w1.held = false ∧ w2.held = false) ∧
    (∃ w1 w2, plainLogger.Errorf goFmt failingEnv "errorf %s" [Value.str "arg"] World.used = some w1 ∧
      plainLogger.Errorf goFmt testEnv "errorf %s" [Value.str "arg"] World.used = some w2 ∧
      w1.writes = World.used.writes ++
        [errLine testEnv plainLogger (goFmt.Sprintf "errorf %s" [Value.str "arg"])] ∧
      w1.writes = w2.writes ∧ w1.buff = w2.buff ∧ w1.held = false ∧ w2.held = false) :=
  ⟨⟨by decide, rfl⟩,
    sink_failure_dropped goFmt testEnv failingAnswer plainLogger
      "errorf %s" [Value.str "arg"] World.used (by decide) rfl⟩

/-- C9: the gated-out fast path has no effect. When the level is above Error, which is
level Fatal, `error` (with any print function), `Error` and `Errorf` return the world
they were given: no event is added (no lock, no clock sample, no buffer access, no print,
no sink write), also when the mutex is held. -/
theorem gated_out_no_effect {V : Type} (F : Fmt V) (env : Env) (l : Logger)
    (print : messagePrintFunction) (format : String) (v : List V) (w : World)
    (h : LevelError.rank < l.level.rank) :
    l.level = Level.Fatal ∧ l.error env print w = some w ∧ l.Error F env v w = some w ∧
      l.Errorf F env format v w = some w := by
  have hg : l.shouldPrint LevelError = false := by
    simp [Logger.shouldPrint]
    exact h
  have hf : l.level = Level.Fatal := by
    by_contra hne
    have := (shouldPrint_error_cases l).2 hne
    rw [hg] at this
    exact Bool.noConfusion this
  exact ⟨hf, internal_error_gated env l print w hg, Error_call_gated F env l v w hg,
    Errorf_call_gated F env l format v w hg⟩

/-- Witness of C9 at the "fatal level" configuration of `TestLoggerLevels`, with a print
function that would write and a buffer that holds an earlier line. -/
theorem gated_out_no_effect_witness :
    LevelError.rank < fatalLogger.level.rank ∧
    fatalLogger.level = Level.Fatal ∧
    fatalLogger.error testEnv (fun w => buffWrite "never" w) World.used = some World.used ∧
    fatalLogger.Error goFmt testEnv [Value.str "error"] World.used = some World.used ∧
    fatalLogger.Errorf goFmt testEnv "errorf %s" [Value.str "arg"] World.used
      = some World.used :=
  ⟨by decide,
    gated_out_no_effect goFmt testEnv fatalLogger (fun w => buffWrite "never" w) "errorf %s"
      [Value.str "arg"] World.used (by decide)⟩

/-- C10: lock discipline of the Error path. Past the gate, the events one call of `Error`
or `Errorf` adds are the clock sample, then `Lock`, the `Reset`, the three segment
appends, the append of the message by the print function, the read of the buffer's bytes,
the sink `Write`, then `Unlock`: every buffer access and the sink write lie between the
one `Lock` and the one `Unlock`, the `Unlock` is the last event, and the mutex is free on
return, whatever the sink answers. -/
theorem error_lock_discipline {V : Type} (F : Fmt V) (env : Env) (l : Logger)
    (format : String) (v : List V) (w : World)
    (hl : LevelError.rank ≥ l.level.rank) (hw : w.held = false) :
    ∃ w1 w2 ev1 ev2, l.Error F env v w = some w1 ∧ l.Errorf F env format v w = some w2 ∧
      w1.trace = w.trace ++ ev1 ∧ w2.trace = w.trace ++ ev2 ∧
      w1.held = false ∧ w2.held = false ∧
      LockDisciplined ev1 ∧ LockDisciplined ev2 ∧
      ev1.filter Event.needsLock =
        [Event.buffReset, Event.buffWrite (l.getTime env env.clock),
         Event.buffWrite (l.getErrPrefix env), Event.buffWrite (l.getCaller env),
         Event.buffWrite (F.Sprintln v), Event.buffBytes,
         Event.outputWrite (errLine env l (F.Sprintln v))
           (env.answer w.writes (errLine env l (F.Sprintln v)))] ∧
      ev2.filter Event.needsLock =
        [Event.buffReset, Event.buffWrite (l.getTime env env.clock),
         Event.buffWrite (l.getErrPrefix env), Event.buffWrite (l.getCaller env),
         Event.buffWrite (F.Sprintf format v), Event.buffBytes,
         Event.outputWrite (errLine env l (F.Sprintf format v))
           (env.answer w.writes (errLine env l (F.Sprintf format v)))] := by
  have h := (shouldPrint_error_iff l).2 hl
  refine ⟨_, _, errEvents env l (F.Sprintln v) w.writes,
    errEvents env l (F.Sprintf format v) w.writes,
    Error_call_passed F env l v w h hw, Errorf_call_passed F env l format v w h hw,
    rfl, rfl, rfl, rfl, ?_, ?_, ?_, ?_⟩
  · exact ⟨lockReplay_errEvents _ _ _ _, by simp [errEvents], by simp [errEvents],
      by simp [errEvents]⟩
  · exact ⟨lockReplay_errEvents _ _ _ _, by simp [errEvents], by simp [errEvents],
      by simp [errEvents]⟩
  · simp [errEvents, Event.needsLock]
  · simp [errEvents, Event.needsLock]

/-- Witness of C10: a call on a sink that fails the write. -/
theorem error_lock_discipline_witness :
    (LevelError.rank ≥ decoratedLogger.level.rank ∧ World.used.held = false) ∧
    ∃ w1 w2 ev1 ev2,
      decoratedLogger.Error goFmt failingEnv [Value.str "error"] World.used = some w1 ∧
      decoratedLogger.Errorf goFmt failingEnv "errorf %s" [Value.str "error"] World.used
        = some w2 ∧
      w1.trace = World.used.trace ++ ev1 ∧ w2.trace = World.used.trace ++ ev2 ∧
      w1.held = false ∧ w2.held = false ∧
      LockDisciplined ev1 ∧ LockDisciplined ev2 ∧
      ev1.filter Event.needsLock =
        [Event.buffReset, Event.buffWrite (decoratedLogger.getTime failingEnv failingEnv.clock),
         Event.buffWrite (decoratedLogger.getErrPrefix failingEnv),
         Event.buffWrite (decoratedLogger.getCaller failingEnv),
         Event.buffWrite (goFmt.Sprintln [Value.str "error"]), Event.buffBytes,
         Event.outputWrite (errLine failingEnv decoratedLogger (goFmt.Sprintln [Value.str "error"]))
           (failingEnv.answer World.used.writes
             (errLine failingEnv decoratedLogger (goFmt.Sprintln [Value.str "error"])))] ∧
      ev2.filter Event.needsLock =
        [Event.buffReset, Event.buffWrite (decoratedLogger.getTime failingEnv failingEnv.clock),
         Event.buffWrite (decoratedLogger.getErrPrefix failingEnv),
         Event.buffWrite (decoratedLogger.getCaller failingEnv),
         Event.buffWrite (goFmt.Sprintf "errorf %s" [Value.str "error"]), Event.buffBytes,
         Event.outputWrite
           (errLine failingEnv decoratedLogger (goFmt.Sprintf "errorf %s" [Value.str "error"]))
           (failingEnv.answer World.used.writes
             (errLine failingEnv decoratedLogger
               (goFmt.Sprintf "errorf %s" [Value.str "error"])))] :=
  ⟨⟨by decide, rfl⟩,
    error_lock_discipline goFmt failingEnv decoratedLogger "errorf %s" [Value.str "error"]
      World.used (by decide) rfl⟩

/-- C2: message rendering with decorations off, evaluated on the first logger of
`TestWithPrefix` (prefix `prefix`): `Error("error")` writes `[ERR] error` and a newline,
`Errorf("errorf %s", "arg")` writes `[ERR] errorf arg`; the lines the claim states,
with the prefix after the tag, are `[ERR] prefixerror` and a newline, and
`[ERR] prefixerrorf arg`. -/
theorem error_rendering_drops_prefix :
    (prefixedLogger.Error goFmt testEnv [Value.str "error"] World.init).map World.writes
      = some ["[ERR] error\n"] ∧
    "[ERR] " ++ prefixedLogger.prefix_ ++ goFmt.Sprintln [Value.str "error"]
      = "[ERR] prefixerror\n" ∧
    (prefixedLogger.Errorf goFmt testEnv "errorf %s" [Value.str "arg"] World.init).map
      World.writes = some ["[ERR] errorf arg"] ∧
    "[ERR] " ++ prefixedLogger.prefix_ ++ goFmt.Sprintf "errorf %s" [Value.str "arg"]
      = "[ERR] prefixerrorf arg" := by
  decide

/-- C3: `Errorf` appends no newline. On the logger of `TestLoggerLevels`, for every format
and operands, the one write is `[ERR] ` and the formatted string, never the formatted
string and a newline. On the inputs of the tests: `Errorf("errorf %s", "arg")` writes
`[ERR] errorf arg` with no newline after it (the test expects one), and
`Errorf("errorf %s\n", "arg")` on the logger with prefix `prefix` writes
`[ERR] errorf arg` and one newline (the test expects `[ERR] prefixerrorf arg` and two). -/
theorem errorf_appends_no_newline :
    (∀ (F : Fmt Value) (env : Env) (format : String) (v : List Value),
      (plainLogger.Errorf F env format v World.init).map World.writes
        = some ["[ERR] " ++ F.Sprintf format v] ∧
      (plainLogger.Errorf F env format v World.init).map World.writes
        ≠ some ["[ERR] " ++ F.Sprintf format v ++ "\n"]) ∧
    (plainLogger.Errorf goFmt testEnv "errorf %s" [Value.str "arg"] World.init).map
      World.writes = some ["[ERR] errorf arg"] ∧
    (prefixedLogger.Errorf goFmt testEnv "errorf %s\n" [Value.str "arg"] World.init).map
      World.writes = some ["[ERR] errorf arg\n"] := by
  refine ⟨fun F env format v => ?_, by decide, by decide⟩
  have h : (plainLogger.Errorf F env format v World.init).map World.writes
      = some ["[ERR] " ++ F.Sprintf format v] := by
    rw [Errorf_call_passed F env plainLogger format v World.init (by decide) rfl]
    simp [errLine_plain env plainLogger _ rfl rfl rfl, World.init]
  refine ⟨h, ?_⟩
  rw [h]
  intro hc
  have hs : "[ERR] " ++ F.Sprintf format v = "[ERR] " ++ F.Sprintf format v ++ "\n" := by
    simpa using hc
  exact string_append_newline_ne _ hs

/-- C4: the segments handed to the sink, evaluated. With the time and caller segments on
and prefix `prefix`, `Error("error")` writes the time, the tag, the caller and the message
and no prefix; with decorations off it writes `[ERR] error` and a newline, where
`TestWithPrefix` expects `[ERR] prefixerror` and a newline; and whatever prefix the logger
of the test is given, the line is the tag and the message. -/
theorem error_segments_omit_prefix :
    (decoratedLogger.Error goFmt testEnv [Value.str "error"] World.init).map World.writes
      = some ["t0 [ERR] log_test.go:25 error\n"] ∧
    (prefixedLogger.Error goFmt testEnv [Value.str "error"] World.init).map World.writes
      = some ["[ERR] error\n"] ∧
    (prefixedLogger.Error goFmt testEnv [Value.str "error"] World.init).map World.writes
      ≠ some ["[ERR] prefixerror\n"] ∧
    (∀ (p : String) (env : Env) (v : List Value),
      (({ plainLogger with prefix_ := p } : Logger).Error goFmt env v World.init).map
        World.writes = some ["[ERR] " ++ goFmt.Sprintln v]) := by
  refine ⟨by decide, by decide, by decide, fun p env v => ?_⟩
  rw [Error_call_passed goFmt env ({ plainLogger with prefix_ := p } : Logger) v World.init rfl rfl]
  simp [errLine_plain env ({ plainLogger with prefix_ := p } : Logger) _ rfl rfl rfl,
    World.init]

/-- C5: prefix chaining. From an empty prefix, `WithPrefix(A)` resolves to `A: ` and
`WithPrefix(A).WithPrefix(B)` to `A: B: `; yet `Error("error")` on the chained logger of
`TestWithPrefix` writes `[ERR] error` and a newline, without the resolved prefix, and it
writes the same line whatever the prefix of that logger is. -/
theorem chained_prefix_resolved_not_rendered :
    (∀ (l : Logger) (A B : String),
      (({ l with prefix_ := "" } : Logger).WithPrefix A).prefix_ = A ++ ": " ∧
      ((({ l with prefix_ := "" } : Logger).WithPrefix A).WithPrefix B).prefix_
        = A ++ ": " ++ B ++ ": ") ∧
    chainedLogger.prefix_ = "[first prefix]: [second prefix]: " ∧
    (chainedLogger.Error goFmt testEnv [Value.str "error"] World.init).map World.writes
      = some ["[ERR] error\n"] ∧
    (∀ p : String,
      (({ chainedLogger with prefix_ := p } : Logger).Error goFmt testEnv [Value.str "error"]
        World.init).map World.writes = some ["[ERR] error\n"]) := by
  refine ⟨fun l A B => ⟨?_, ?_⟩, by decide, by decide, fun p => ?_⟩
  · simp [Logger.WithPrefix]
  · simp [Logger.WithPrefix, String.append_assoc]
  · rw [Error_call_passed goFmt testEnv ({ chainedLogger with prefix_ := p } : Logger)
      [Value.str "error"] World.init rfl rfl]
    simp [errLine_plain testEnv ({ chainedLogger with prefix_ := p } : Logger) _ rfl rfl rfl,
      World.init]
    decide

/-- C8: raw write path. Whatever the configured level, with time and caller off and the
mutex free, `Write(b)` and `WriteString(s)` return and hand exactly the resolved prefix
followed by `b`, respectively `s`, to the sink in one write: no gate, no level tag, no
newline. -/
theorem raw_write_applies_prefix (env : Env) (l : Logger) (b s : String) (w : World)
    (ht : l.printTime = false) (hc : l.printErrorLine = false) (hw : w.held = false) :
    (∃ w1, l.Write env b w = some w1 ∧ w1.writes = w.writes ++ [l.prefix_ ++ b]) ∧
    (∃ w2, l.WriteString env s w = some w2 ∧ w2.writes = w.writes ++ [l.prefix_ ++ s]) := by
  constructor
  · simp [Logger.Write, timeNow, mutexLock, hw, buffReset, Logger.writeIntoBuffer, buffWrite,
      buffBytes, outputWrite, mutexUnlock, Logger.getTime, Logger.getCaller, ht, hc]
  · simp [Logger.WriteString, Logger.Write, timeNow, mutexLock, hw, buffReset,
      Logger.writeIntoBuffer, buffWrite, buffBytes, outputWrite, mutexUnlock, Logger.getTime,
      Logger.getCaller, ht, hc]

/-- Witness of C8 at the "fatal level" configuration of `TestLoggerLevels` with the prefix
`prefix` set, on a logger that has been used. -/
theorem raw_write_applies_prefix_witness :
    (fatalPrefixedLogger.printTime = false ∧ fatalPrefixedLogger.printErrorLine = false ∧
      World.used.held = false) ∧
    (∃ w1, fatalPrefixedLogger.Write testEnv "bytes" World.used = some w1 ∧
      w1.writes = World.used.writes ++ [fatalPrefixedLogger.prefix_ ++ "bytes"]) ∧
    (∃ w2, fatalPrefixedLogger.WriteString testEnv "string" World.used = some w2 ∧
      w2.writes = World.used.writes ++ [fatalPrefixedLogger.prefix_ ++ "string"]) :=
  ⟨⟨rfl, rfl, rfl⟩,
    raw_write_applies_prefix testEnv fatalPrefixedLogger "bytes" "string" World.used
      rfl rfl rfl⟩

end Clog
